import Mathlib

/-!
# Verification of the Dock2Tauri launch controller

Shallow embedding of `src/scripts/dock2tauri.py`: a sequential orchestration
script that launches a Docker container, waits for it to serve HTTP, writes a
Tauri shell configuration (backing up any prior one), invokes the packaging
tool, and tears everything down in a `finally` block.

External effects (the Docker CLI, the filesystem, HTTP probes, the packaging
tool, keyboard interrupts) are modelled by an environment record `Env` whose
fields fix the outcome of each external call; the controller logic itself is
translated faithfully from the Python source.  File contents are modelled
polymorphically (`FS α`), so byte-for-byte preservation statements are
type-generic.
-/

namespace Dock2Tauri

/-! ## Character-level sanitization (from `Dock2Tauri.__init__`)

The source derives the container name with
`image.replace(':', '-').replace('/', '-')`: two sequential whole-string
replacements whose patterns are single characters, i.e. two character maps
applied left to right. -/

/-- Python `s.replace(old, new)` for a single-character pattern: every
occurrence of `old` is replaced by `new`. -/
def pyReplaceChar (old new : Char) (cs : List Char) : List Char :=
  cs.map (fun c => if c = old then new else c)

/-- The sanitization performed in `Dock2Tauri.__init__`:
`image.replace(':', '-').replace('/', '-')`. -/
def sanitizeChars (cs : List Char) : List Char :=
  pyReplaceChar '/' '-' (pyReplaceChar ':' '-' cs)

/-- Spec-side sanitization, modelled from the spec's words: "sanitization
replaces every `:` and `/` in the image reference with `-`" (a single
simultaneous character map).  Used only to compare against the source-side
`sanitizeChars`. -/
def specSanitizeChars (cs : List Char) : List Char :=
  cs.map (fun c => if c = ':' ∨ c = '/' then '-' else c)

/-- String form of the source-side sanitization. -/
def sanitize (s : String) : String :=
  String.mk (sanitizeChars s.data)

/-- String form of the spec-side sanitization. -/
def specSanitize (s : String) : String :=
  String.mk (specSanitizeChars s.data)

/-! ## The controller record (from `Dock2Tauri.__init__`) -/

/-- The fields set in `Dock2Tauri.__init__`.  `host_port` and `container_port`
are stored as strings (`str(host_port)`, `str(container_port)`); the container
name interpolates the original integer, which prints identically.  Ports are
`Int` because `argparse` with `type=int` accepts any integer. -/
structure Controller where
  image : String
  host_port : String
  container_port : String
  container_name : String
  build_release : Bool
  build_target : Option String
deriving Repr, DecidableEq

/-- `Dock2Tauri.__init__(image, host_port, container_port, build_release,
build_target)`.  No validation of any kind is performed: the constructor is
total and unconditionally derives
`container_name = "dock2tauri-" + sanitized image + "-" + str(host_port)`. -/
def initController (image : String) (host_port container_port : Int)
    (build_release : Bool) (build_target : Option String) : Controller :=
  { image := image
    host_port := toString host_port
    container_port := toString container_port
    container_name :=
      "dock2tauri-" ++ sanitize image ++ "-" ++ toString host_port
    build_release := build_release
    build_target := build_target }

/-! ## Generated shell configuration (from `Dock2Tauri.update_tauri_config`)

Only the fields the specification's claims mention are modelled; the
remaining fields of the JSON document are constants in the source. -/

/-- Characters excluded from the product name:
`c not in '/\\:*?"<>|'` in the source. -/
def productNameBadChar (c : Char) : Bool :=
  c = '/' ∨ c = '\\' ∨ c = ':' ∨ c = '*' ∨ c = '?' ∨
    c = '"' ∨ c = '<' ∨ c = '>' ∨ c = '|'

/-- The configuration fields generated in `update_tauri_config`. -/
structure ShellConfig where
  productName : String
  devUrl : String
  windowTitle : String
  frontendDist : String
  width : Nat
  height : Nat
deriving Repr, DecidableEq

/-- The configuration document built in `update_tauri_config` (the `config`
dict), restricted to the modelled fields:
* `productName = "Dock2Tauri - " + filter of image.split(':')[0]`
* `devUrl = f"http://localhost:{self.host_port}"`
* window title `f"Dock2Tauri - {self.image}"`, width 1200, height 800,
  `frontendDist = "../app"`. -/
def genConfig (c : Controller) : ShellConfig :=
  { productName :=
      "Dock2Tauri - " ++
        String.mk ((((c.image.splitOn ":").headD "").data.filter
          (fun ch => ¬ productNameBadChar ch)))
    devUrl := "http://localhost:" ++ c.host_port
    windowTitle := "Dock2Tauri - " ++ c.image
    frontendDist := "../app"
    width := 1200
    height := 800 }

/-! ## Filesystem and controller state -/

/-- The two file slots the controller touches: `src-tauri/tauri.conf.json`
(`config`) and `src-tauri/tauri.conf.json.backup` (`backup`).  Contents are
polymorphic so that byte-exactness statements are type-generic. -/
structure FS (α : Type) where
  config : Option α
  backup : Option α
deriving Repr, DecidableEq

/-- Mutable controller state: `self.container_id` (set once the `docker run`
succeeds, never reset), whether that container still exists in the Docker
daemon, and the two file slots. -/
structure CtrlState (α : Type) where
  container_id : Option String
  containerExists : Bool
  fs : FS α
deriving Repr, DecidableEq

/-! ## Dependency check (from `Dock2Tauri.check_dependencies`) -/

/-- How one invocation of the packaging tool (`cargo tauri dev` / `build`)
ends: normal exit, `CalledProcessError`, or `KeyboardInterrupt` while it
runs. -/
inductive TauriRun
  | ok
  | fails
  | interrupted
deriving Repr, DecidableEq

/-- The phase of `Dock2Tauri.run` during which a `KeyboardInterrupt`
arrives, if any. -/
inductive Phase
  | deps
  | stopExisting
  | launch
  | wait
  | config
  | tauri
deriving Repr, DecidableEq

/-- Fixed outcomes of every external call made during one run. -/
structure Env where
  /-- `which docker` succeeds. -/
  dockerFound : Bool
  /-- `which cargo` succeeds. -/
  cargoFound : Bool
  /-- `docker info` succeeds (daemon reachable). -/
  daemonUp : Bool
  /-- `docker run -d ...` succeeds. -/
  launchOk : Bool
  /-- The container id printed by a successful `docker run`. -/
  containerIdStr : String
  /-- Result of the i-th HTTP GET: `some s` = a response with status `s`,
  `none` = the request raised (connection refused, HTTP error, timeout). -/
  resp : Nat → Option Nat
  /-- Writing `tauri.conf.json` succeeds. -/
  configWriteOk : Bool
  /-- Outcome of the packaging-tool subprocess (when cargo is found). -/
  tauriRun : TauriRun
  /-- Phase interrupted by the user, if any. -/
  interrupt : Option Phase
  /-- The `docker stop` / `docker rm` calls in `cleanup` fail. -/
  dockerFails : Bool
  /-- `backup_file.rename(config_file)` in `cleanup` raises. -/
  renameRaises : Bool

/-- `Dock2Tauri.check_dependencies`: fails when Docker is missing or the
daemon is unreachable; a missing cargo only logs a warning and does not
affect the result. -/
def check_dependencies (env : Env) : Bool :=
  if env.dockerFound = false then false
  else if env.daemonUp = false then false
  else true

/-! ## Readiness poller (from `Dock2Tauri.wait_for_service`) -/

/-- The polling loop `for i in range(fuel)` starting at attempt index `i`:
returns whether a 200 response was seen and how many GET attempts were
issued.  A non-200 response and a raised request both just continue the
loop. -/
def waitCore (resp : Nat → Option Nat) : Nat → Nat → Bool × Nat
  | 0, _ => (false, 0)
  | fuel + 1, i =>
      if resp i = some 200 then (true, 1)
      else
        let r := waitCore resp fuel (i + 1)
        (r.1, r.2 + 1)

/-- `Dock2Tauri.wait_for_service`: up to 30 GET attempts, success on the
first status-200 response, `False` after 30 failed attempts. -/
def wait_for_service (resp : Nat → Option Nat) : Bool :=
  (waitCore resp 30 0).1

/-- Number of GET attempts `wait_for_service` issues. -/
def serviceAttempts (resp : Nat → Option Nat) : Nat :=
  (waitCore resp 30 0).2

/-! ## Configuration write (from `Dock2Tauri.update_tauri_config`) -/

/-- `Dock2Tauri.update_tauri_config`: if `tauri.conf.json` exists its content
is first copied over the backup slot (`shutil.copy2`, overwriting any prior
backup); then the new document is written (`writeOk` = the write does not
raise).  Returns the source's boolean result together with the new file
state; on a failed write the config slot is left as it was (the exception is
raised by `open`). -/
def update_tauri_config (writeOk : Bool) (new : α) (fs : FS α) :
    Bool × FS α :=
  let fs1 : FS α :=
    match fs.config with
    | some c => { fs with backup := some c }
    | none => fs
  if writeOk then (true, { fs1 with config := some new })
  else (false, fs1)

/-! ## Packaging tool (from `Dock2Tauri.launch_tauri`) -/

/-- `Dock2Tauri.launch_tauri`: when cargo exists, run the tool — `True` on
normal exit, `False` on `CalledProcessError`, and `True` when a
`KeyboardInterrupt` arrives while it runs (caught inside the function);
when cargo is missing, log and return `False`. -/
def launch_tauri (cargoFound : Bool) (r : TauriRun) : Bool :=
  if cargoFound then
    match r with
    | TauriRun.ok => true
    | TauriRun.fails => false
    | TauriRun.interrupted => true
  else false

/-! ## Teardown (from `Dock2Tauri.cleanup`) -/

/-- `Dock2Tauri.cleanup`.  The Docker section is wrapped in
`try/except Exception` so a failing `docker stop`/`docker rm` is only
logged; the backup restore `backup_file.rename(self.config_file)` is NOT
guarded, so a raising rename escalates.  Returns
`(raised, state after the call)`. -/
def cleanup (dockerFails renameRaises : Bool) (s : CtrlState α) :
    Bool × CtrlState α :=
  let s1 : CtrlState α :=
    match s.container_id with
    | some _ => if dockerFails then s else { s with containerExists := false }
    | none => s
  match s1.fs.backup with
  | none => (false, s1)
  | some b =>
      if renameRaises then (true, s1)
      else (false, { s1 with fs := { config := some b, backup := none } })

/-! ## Main flow (from `Dock2Tauri.run` and `main`) -/

/-- Observable steps of one run, in order of occurrence. -/
inductive Event
  /-- `check_dependencies` returned `False`. -/
  | depsFailed
  /-- `check_dependencies` returned `True`. -/
  | depsPassed
  /-- `stop_existing_containers` ran, filtering on `publish=<host port>`. -/
  | reclaim (port : String)
  /-- `docker run` succeeded: a container with this name and `-p` port
  mapping was created. -/
  | containerStart (name : String) (portMap : String)
  /-- `wait_for_service` completed with this (discarded) result. -/
  | waitDone (ready : Bool)
  /-- `update_tauri_config` was invoked. -/
  | configWrite
  /-- `launch_tauri` completed with this (discarded) result. -/
  | tauriInvoke (ok : Bool)
  /-- `cleanup` began executing. -/
  | cleanupRun
deriving Repr, DecidableEq

/-- The `try` block of `Dock2Tauri.run`.  Result: the boolean `run` will
return (before `finally`), the state when the block exits, and the events
that occurred.  A `KeyboardInterrupt` at phase `p` aborts that phase; it is
caught by `run`'s `except KeyboardInterrupt`, whose handler only logs, so
control falls through to `return True`.  The results of `wait_for_service`,
`update_tauri_config` and `launch_tauri` are discarded by the source. -/
def runBody (env : Env) (ctrl : Controller) (new : α) (s0 : CtrlState α) :
    Bool × CtrlState α × List Event :=
  if env.interrupt = some Phase.deps then (true, s0, [])
  else if check_dependencies env = false then (false, s0, [Event.depsFailed])
  else if env.interrupt = some Phase.stopExisting then
    (true, s0, [Event.depsPassed])
  else
    let ev1 := [Event.depsPassed, Event.reclaim ctrl.host_port]
    if env.interrupt = some Phase.launch then (true, s0, ev1)
    else if env.launchOk = false then (false, s0, ev1)
    else
      let s1 : CtrlState α :=
        { s0 with container_id := some env.containerIdStr,
                  containerExists := true }
      let ev2 := ev1 ++
        [Event.containerStart ctrl.container_name
          (ctrl.host_port ++ ":" ++ ctrl.container_port)]
      if env.interrupt = some Phase.wait then (true, s1, ev2)
      else
        let ev3 := ev2 ++ [Event.waitDone (wait_for_service env.resp)]
        if env.interrupt = some Phase.config then (true, s1, ev3)
        else
          let wr := update_tauri_config env.configWriteOk new s1.fs
          let s2 : CtrlState α := { s1 with fs := wr.2 }
          let ev4 := ev3 ++ [Event.configWrite]
          if env.interrupt = some Phase.tauri then (true, s2, ev4)
          else
            (true, s2,
              ev4 ++ [Event.tauriInvoke (launch_tauri env.cargoFound env.tauriRun)])

/-- The result of `Dock2Tauri.run` as observed by `main`:
`Except.ok b` = `run` returned `b`; `Except.error ()` = an exception escaped
`run` (only possible from the unguarded rename in `cleanup`, which executes
in the `finally` block and replaces the pending return). -/
structure RunResult (α : Type) where
  outcome : Except Unit Bool
  state : CtrlState α
  trace : List Event

/-- `Dock2Tauri.run`: the `try` body followed unconditionally by `cleanup`
(the `finally` block). -/
def run (env : Env) (ctrl : Controller) (new : α) (s0 : CtrlState α) :
    RunResult α :=
  let r := runBody env ctrl new s0
  let c := cleanup env.dockerFails env.renameRaises r.2.1
  { outcome := if c.1 then Except.error () else Except.ok r.1
    state := c.2
    trace := r.2.2 ++ [Event.cleanupRun] }

/-- The process exit code produced by `main`:
`sys.exit(0 if success else 1)`, and 1 when an exception escapes `run`
uncaught. -/
def exitCode (env : Env) (ctrl : Controller) (new : α) (s0 : CtrlState α) :
    Nat :=
  match (run env ctrl new s0).outcome with
  | Except.ok true => 0
  | Except.ok false => 1
  | Except.error _ => 1

/-! ## Shared concrete inputs for witnesses and counterexamples -/

/-- An environment in which every external call succeeds and the HTTP target
never answers. -/
def envAllOk : Env :=
  { dockerFound := true
    cargoFound := true
    daemonUp := true
    launchOk := true
    containerIdStr := "abc123"
    resp := fun _ => none
    configWriteOk := true
    tauriRun := TauriRun.ok
    interrupt := none
    dockerFails := false
    renameRaises := false }

/-- A fresh controller state: no container started, no config file, no
backup. -/
def fresh : CtrlState Nat :=
  { container_id := none, containerExists := false
    fs := { config := none, backup := none } }

/-! ## Sanitization lemmas -/

/-- Composing the two single-character replacements of the source equals the
spec's simultaneous character map, on each character. -/
theorem sanitizeStep (c : Char) :
    (if (if c = ':' then '-' else c) = '/' then '-'
      else (if c = ':' then '-' else c))
      = (if c = ':' ∨ c = '/' then '-' else c) := by
  by_cases h1 : c = ':'
  · subst h1; decide
  · by_cases h2 : c = '/'
    · subst h2; decide
    · simp [h1, h2]

/-- The source's sequential `replace(':', '-').replace('/', '-')` agrees with
the spec's simultaneous sanitization on every character list. -/
theorem sanitizeChars_eq_spec : ∀ cs, sanitizeChars cs = specSanitizeChars cs
  | [] => rfl
  | c :: cs => by
      have ih := sanitizeChars_eq_spec cs
      simp only [sanitizeChars, specSanitizeChars, pyReplaceChar,
        List.map_cons] at *
      exact congrArg₂ List.cons (sanitizeStep c) ih

/-- String form of `sanitizeChars_eq_spec`. -/
theorem sanitize_eq_spec (s : String) : sanitize s = specSanitize s :=
  congrArg String.mk (sanitizeChars_eq_spec s.data)

/-! ## Claim C7 -/

/-- Claim C7: for every image reference and host port, the derived instance
name is the pure function `dock2tauri-<sanitized-image>-<hostPort>`, where
sanitization replaces every `:` and `/` with `-` (proved against the
spec-worded `specSanitize`); in particular image `nginx:alpine` with host
port 8088 yields `dock2tauri-nginx-alpine-8088`, and the generated
configuration's dev-server URL is `http://localhost:<hostPort>`, here
`http://localhost:8088`. -/
theorem c7_instance_naming (image : String) (hp cp : Int) (br : Bool)
    (bt : Option String) :
    (initController image hp cp br bt).container_name
        = "dock2tauri-" ++ specSanitize image ++ "-" ++ toString hp
      ∧ (genConfig (initController image hp cp br bt)).devUrl
        = "http://localhost:" ++ toString hp
      ∧ (initController "nginx:alpine" 8088 80 false none).container_name
        = "dock2tauri-nginx-alpine-8088"
      ∧ (genConfig (initController "nginx:alpine" 8088 80 false none)).devUrl
        = "http://localhost:8088" := by
  refine ⟨?_, rfl, by decide, by decide⟩
  show "dock2tauri-" ++ sanitize image ++ "-" ++ toString hp
      = "dock2tauri-" ++ specSanitize image ++ "-" ++ toString hp
  rw [sanitize_eq_spec]

/-! ## Claim C2 (corrected: the code never validates ports) -/

/-- Claim C2, counterexample: the source performs no port validation at all.
With host port 70000 — outside `[1, 65535]` — the request is not rejected:
the full pipeline runs, the container is started with port mapping
`70000:80` under the derived name, the generated configuration points at
`http://localhost:70000`, and the run exits 0. -/
theorem c2_ports_cex :
    Event.containerStart "dock2tauri-nginx-alpine-70000" "70000:80"
        ∈ (run envAllOk (initController "nginx:alpine" 70000 80 false none)
            (0 : Nat) fresh).trace
      ∧ (genConfig (initController "nginx:alpine" 70000 80 false none)).devUrl
        = "http://localhost:70000"
      ∧ exitCode envAllOk (initController "nginx:alpine" 70000 80 false none)
          (0 : Nat) fresh = 0 := by
  refine ⟨?_, by decide, by decide⟩
  decide

/-- Claim C2, amended: no validation of the ports ever happens; for every
image and every pair of integer ports (in range or not), the controller is
constructed unconditionally and, in any run that passes the dependency
check and whose `docker run` succeeds, the ports are used as given in the
container's port mapping. -/
theorem c2_ports_unvalidated (α : Type) (image : String) (hp cp : Int)
    (br : Bool) (bt : Option String) (env : Env) (new : α) (s0 : CtrlState α)
    (hi : env.interrupt = none) (hd : check_dependencies env = true)
    (hl : env.launchOk = true) :
    (initController image hp cp br bt).host_port = toString hp
      ∧ (initController image hp cp br bt).container_port = toString cp
      ∧ Event.containerStart (initController image hp cp br bt).container_name
          (toString hp ++ ":" ++ toString cp)
        ∈ (run env (initController image hp cp br bt) new s0).trace := by
  refine ⟨rfl, rfl, ?_⟩
  simp [run, runBody, hi, hd, hl, initController]

/-- Witness for `c2_ports_unvalidated` at image `nginx:alpine`, host port
70000, container port 80, in the all-success environment. -/
theorem c2_ports_unvalidated_witness :
    envAllOk.interrupt = none ∧ check_dependencies envAllOk = true
      ∧ envAllOk.launchOk = true
      ∧ ((initController "nginx:alpine" 70000 80 false none).host_port
            = toString (70000 : Int)
        ∧ (initController "nginx:alpine" 70000 80 false none).container_port
            = toString (80 : Int)
        ∧ Event.containerStart
            (initController "nginx:alpine" 70000 80 false none).container_name
            (toString (70000 : Int) ++ ":" ++ toString (80 : Int))
          ∈ (run envAllOk (initController "nginx:alpine" 70000 80 false none)
              (0 : Nat) fresh).trace) :=
  ⟨rfl, rfl, rfl,
    c2_ports_unvalidated Nat "nginx:alpine" 70000 80 false none envAllOk 0
      fresh rfl rfl rfl⟩

/-! ## Claim C3 -/

/-- Claim C3: configuration backup/restore round-trip.  For every file
content type and every pre-state whose backup slot is empty (as at the start
of a run: every teardown consumes the backup by renaming it away), after a
successful configuration write followed by a teardown whose restore rename
succeeds:
* if a config file with content `c` existed before the write, `c` was saved
  to the single backup slot by the write, and teardown restores exactly `c`
  at the config path;
* if no config file existed before the write, no backup is created and
  teardown leaves the freshly written file at the config path untouched. -/
theorem c3_backup_restore_roundtrip (α : Type) (new : α) (cid : Option String)
    (ce df : Bool) (fs : FS α) (hb : fs.backup = none) :
    (∀ c, fs.config = some c →
        ((update_tauri_config true new fs).2.backup = some c
          ∧ ((cleanup df false
              { container_id := cid, containerExists := ce,
                fs := (update_tauri_config true new fs).2 }).2).fs.config
            = some c))
      ∧ (fs.config = none →
        ((update_tauri_config true new fs).2.backup = none
          ∧ ((cleanup df false
              { container_id := cid, containerExists := ce,
                fs := (update_tauri_config true new fs).2 }).2).fs.config
            = some new)) := by
  constructor
  · intro c hc
    cases cid <;> cases df <;>
      simp [update_tauri_config, cleanup, hc]
  · intro hc
    cases cid <;> cases df <;>
      simp [update_tauri_config, cleanup, hc, hb]

/-- Witness for `c3_backup_restore_roundtrip`: prior content `41` is backed
up and restored byte-for-byte; with no prior file the written content `7`
is left in place. -/
theorem c3_backup_restore_roundtrip_witness :
    (FS.backup { config := some 41, backup := none } = (none : Option Nat)
      ∧ ((update_tauri_config true 7
            { config := some 41, backup := none }).2.backup = some 41
        ∧ ((cleanup false false
            { container_id := some "abc123", containerExists := true,
              fs := (update_tauri_config true 7
                { config := some 41, backup := none }).2 }).2).fs.config
          = some 41))
      ∧ (FS.backup { config := none, backup := none } = (none : Option Nat)
        ∧ ((update_tauri_config true (7 : Nat)
              { config := none, backup := none }).2.backup = none
          ∧ ((cleanup false false
              { container_id := some "abc123", containerExists := true,
                fs := (update_tauri_config true (7 : Nat)
                  { config := none, backup := none }).2 }).2).fs.config
            = some 7)) :=
  ⟨⟨rfl,
    (c3_backup_restore_roundtrip Nat 7 (some "abc123") true false
        { config := some 41, backup := none } rfl).1 41 rfl⟩,
   ⟨rfl,
    (c3_backup_restore_roundtrip Nat 7 (some "abc123") true false
        { config := none, backup := none } rfl).2 rfl⟩⟩

/-! ## Claim C4 (corrected: a failing restore rename escalates) -/

/-- Claim C4, counterexample: teardown can throw.  In a state where a backup
exists and the restore rename fails, `cleanup` raises (the
`backup_file.rename(config_file)` call is outside any `try`): the failure is
escalated to the caller, not merely logged. -/
theorem c4_teardown_throws_cex :
    (cleanup false true
      { container_id := some "abc123", containerExists := true,
        fs := { config := some 1, backup := some 2 } } : Bool × CtrlState Nat).1
      = true := by
  decide

/-- Claim C4, amended: failures while stopping or removing the container are
only logged and never escalated, in every state; teardown escalates exactly
when a configuration backup exists and the restore rename fails.  (Escalation
is the only way teardown can change the caller's exit code.) -/
theorem c4_teardown_escalation (α : Type) (df rr : Bool) (s : CtrlState α) :
    (cleanup df rr s).1 = true
      ↔ ((∃ b, s.fs.backup = some b) ∧ rr = true) := by
  cases s with
  | mk cid ce fs =>
    cases hb : fs.backup <;> cases cid <;> cases df <;> cases rr <;>
      simp [cleanup, hb]

/-! ## Claim C9 -/

/-- Claim C9: teardown is re-entrant-safe and idempotent.  Invoking it when
no container was started and no backup exists is a no-op (not an error);
and after any non-raising teardown, a second teardown — under any outcome
of its own docker calls or rename — does not raise, does not restore the
backup a second time, and leaves both file slots unchanged (so it cannot
change the exit code). -/
theorem c9_teardown_idempotent (α : Type) (df rr df' rr' : Bool)
    (s : CtrlState α) :
    (s.container_id = none → s.fs.backup = none →
        cleanup df rr s = (false, s))
      ∧ ((cleanup df rr s).1 = false →
        ((cleanup df' rr' (cleanup df rr s).2).1 = false
          ∧ ((cleanup df' rr' (cleanup df rr s).2).2).fs
            = ((cleanup df rr s).2).fs)) := by
  constructor
  · intro h1 h2
    cases s with
    | mk cid ce fs => simp_all [cleanup]
  · intro h
    cases s with
    | mk cid ce fs =>
      cases hb : fs.backup <;> cases cid <;> cases df <;> cases rr <;>
        cases df' <;> cases rr' <;>
          simp_all [cleanup]

/-- Witness for `c9_teardown_idempotent`: the no-op case on a fresh state,
and a double teardown after a run that started a container and backed up a
prior configuration. -/
theorem c9_teardown_idempotent_witness :
    (fresh.container_id = none ∧ fresh.fs.backup = none
      ∧ cleanup false false fresh = (false, fresh))
      ∧ ((cleanup false false
            { container_id := some "abc123", containerExists := true,
              fs := { config := some 7, backup := some 41 } }
              : Bool × CtrlState Nat).1 = false
        ∧ ((cleanup true true (cleanup false false
              { container_id := some "abc123", containerExists := true,
                fs := { config := some 7, backup := some 41 } }
                : Bool × CtrlState Nat).2).1 = false
          ∧ ((cleanup true true (cleanup false false
              { container_id := some "abc123", containerExists := true,
                fs := { config := some 7, backup := some 41 } }
                : Bool × CtrlState Nat).2).2).fs
            = ((cleanup false false
              { container_id := some "abc123", containerExists := true,
                fs := { config := some 7, backup := some 41 } }
                : Bool × CtrlState Nat).2).fs)) :=
  ⟨⟨rfl, rfl,
    (c9_teardown_idempotent Nat false false false false fresh).1 rfl rfl⟩,
   ⟨rfl,
    (c9_teardown_idempotent Nat false false true true
      { container_id := some "abc123", containerExists := true,
        fs := { config := some 7, backup := some 41 } }).2 rfl⟩⟩

/-! ## Helper lemmas on `cleanup` and `runBody` -/

/-- When the restore rename succeeds, `cleanup` never raises (the Docker
section is fully guarded by `try/except`). -/
theorem cleanup_not_raised (df rr : Bool) (s : CtrlState α)
    (hrr : rr = false) : (cleanup df rr s).1 = false := by
  subst hrr
  cases s with
  | mk cid ce fs =>
    cases hb : fs.backup <;> cases cid <;> cases df <;> simp [cleanup, hb]

/-- Whenever the dependency check passes and `docker run` succeeds, the `try`
body of `run` evaluates to `True` — configuration-write failures, readiness
timeouts, packaging-tool failures and interrupts are all swallowed. -/
theorem runBody_fst_true (α : Type) (env : Env) (ctrl : Controller) (new : α)
    (s0 : CtrlState α) (hd : check_dependencies env = true)
    (hl : env.launchOk = true) : (runBody env ctrl new s0).1 = true := by
  unfold runBody
  cases hi : env.interrupt with
  | none => simp [hd, hl]
  | some p => cases p <;> simp [hd, hl]

/-! ## Claim C5 -/

/-- Claim C5: teardown runs on every exit path.  For every environment —
dependency failure, launch failure, interrupt at any phase, packaging
failure, all of them — the teardown sequencer begins executing before `run`
returns (it is the `finally` block of the one `try` wrapping the whole
lifecycle). -/
theorem c5_teardown_always_runs (α : Type) (env : Env) (ctrl : Controller)
    (new : α) (s0 : CtrlState α) :
    Event.cleanupRun ∈ (run env ctrl new s0).trace := by
  simp [run]

/-! ## Claim C6 -/

/-- If no attempt in the window sees a 200 response, the polling loop returns
failure after issuing exactly `fuel` GET attempts. -/
theorem waitCore_fail (resp : Nat → Option Nat) :
    ∀ fuel i, (∀ k, k < fuel → resp (i + k) ≠ some 200) →
      waitCore resp fuel i = (false, fuel) := by
  intro fuel
  induction fuel with
  | zero => intro i _; rfl
  | succ n ih =>
      intro i h
      have h0 : ¬ resp i = some 200 := by
        have := h 0 (Nat.succ_pos n); simpa using this
      have hrec := ih (i + 1) (fun k hk => by
        have hk1 := h (k + 1) (Nat.succ_lt_succ hk)
        have e : i + (k + 1) = i + 1 + k := by omega
        rw [e] at hk1; exact hk1)
      simp [waitCore, h0, hrec]

/-- The polling loop succeeds on the first 200 response: if attempt `j` is
the first to see status 200, it returns success after exactly `j + 1`
attempts. -/
theorem waitCore_success (resp : Nat → Option Nat) :
    ∀ fuel i j, j < fuel → resp (i + j) = some 200 →
      (∀ k, k < j → resp (i + k) ≠ some 200) →
      waitCore resp fuel i = (true, j + 1) := by
  intro fuel
  induction fuel with
  | zero => intro i j hj _ _; exact absurd hj (Nat.not_lt_zero j)
  | succ n ih =>
      intro i j hj h200 hmin
      cases j with
      | zero =>
          have h0 : resp i = some 200 := by simpa using h200
          simp [waitCore, h0]
      | succ m =>
          have h0 : ¬ resp i = some 200 := by
            have := hmin 0 (Nat.succ_pos m); simpa using this
          have hrec := ih (i + 1) m (by omega)
            (by
              have e : i + 1 + m = i + (m + 1) := by omega
              rw [e]; exact h200)
            (fun k hk => by
              have hk1 := hmin (k + 1) (Nat.succ_lt_succ hk)
              have e : i + (k + 1) = i + 1 + k := by omega
              rw [e] at hk1; exact hk1)
          simp [waitCore, h0, hrec]

/-- Claim C6: the readiness poller issues at most 30 GET attempts; it returns
success on the first response with status 200 (after first-success-index + 1
attempts); when no 200 is seen it returns a timeout indication after exactly
30 attempts; and the caller then continues to the configuration phase rather
than aborting, whatever the poll observed. -/
theorem c6_readiness_poller (α : Type) (resp : Nat → Option Nat) (env : Env)
    (ctrl : Controller) (new : α) (s0 : CtrlState α) :
    ((∀ i, i < 30 → resp i ≠ some 200) →
        wait_for_service resp = false ∧ serviceAttempts resp = 30)
      ∧ (∀ j, j < 30 → resp j = some 200 →
          (∀ i, i < j → resp i ≠ some 200) →
          wait_for_service resp = true ∧ serviceAttempts resp = j + 1)
      ∧ (env.interrupt = none → check_dependencies env = true →
          env.launchOk = true →
          Event.configWrite ∈ (run env ctrl new s0).trace) := by
  refine ⟨?_, ?_, ?_⟩
  · intro h
    have hw := waitCore_fail resp 30 0 (fun k hk => by simpa using h k hk)
    simp [wait_for_service, serviceAttempts, hw]
  · intro j hj h200 hmin
    have hw := waitCore_success resp 30 0 j hj (by simpa using h200)
      (fun k hk => by simpa using hmin k hk)
    simp [wait_for_service, serviceAttempts, hw]
  · intro hi hd hl
    simp [run, runBody, hi, hd, hl]

/-- A probe target that never answers. -/
def respNever : Nat → Option Nat := fun _ => none

/-- A probe target that first answers 200 on the fifth attempt (index 4). -/
def respAt4 : Nat → Option Nat := fun i => if i = 4 then some 200 else none

/-- Witness for `c6_readiness_poller`: a never-answering target times out
after exactly 30 attempts; a target first answering on attempt index 4
succeeds after 5 attempts; and in the all-success environment the caller
reaches the configuration phase even though the poll timed out. -/
theorem c6_readiness_poller_witness :
    ((∀ i, i < 30 → respNever i ≠ some 200)
      ∧ wait_for_service respNever = false ∧ serviceAttempts respNever = 30)
      ∧ (((4 : Nat) < 30 ∧ respAt4 4 = some 200
          ∧ (∀ i, i < 4 → respAt4 i ≠ some 200))
        ∧ wait_for_service respAt4 = true ∧ serviceAttempts respAt4 = 5)
      ∧ (envAllOk.interrupt = none ∧ check_dependencies envAllOk = true
        ∧ envAllOk.launchOk = true
        ∧ Event.configWrite
          ∈ (run envAllOk (initController "nginx:alpine" 8088 80 false none)
              (0 : Nat) fresh).trace) :=
  ⟨⟨by decide,
    (c6_readiness_poller Nat respNever envAllOk
      (initController "nginx:alpine" 8088 80 false none) 0 fresh).1
      (by decide)⟩,
   ⟨⟨by decide, by decide, by decide⟩,
    (c6_readiness_poller Nat respAt4 envAllOk
      (initController "nginx:alpine" 8088 80 false none) 0 fresh).2.1
      4 (by decide) (by decide) (by decide)⟩,
   ⟨rfl, rfl, rfl,
    (c6_readiness_poller Nat respNever envAllOk
      (initController "nginx:alpine" 8088 80 false none) 0 fresh).2.2
      rfl rfl rfl⟩⟩

/-! ## Claim C8 -/

/-- Claim C8: when the dependency check fails (Docker missing or daemon
unreachable), the run aborts before any side effect: starting from a fresh
state (no container, no backup), no container is started, the configuration
write is never reached, the final state is exactly the initial one, and the
process exits with code 1. -/
theorem c8_deps_failure_aborts (α : Type) (env : Env) (ctrl : Controller)
    (new : α) (s0 : CtrlState α) (hi : env.interrupt = none)
    (hd : check_dependencies env = false) (hc : s0.container_id = none)
    (hb : s0.fs.backup = none) :
    exitCode env ctrl new s0 = 1
      ∧ (run env ctrl new s0).state = s0
      ∧ (∀ n pm, Event.containerStart n pm ∉ (run env ctrl new s0).trace)
      ∧ Event.configWrite ∉ (run env ctrl new s0).trace := by
  have hclean : cleanup env.dockerFails env.renameRaises s0 = (false, s0) := by
    cases s0 with
    | mk cid ce fs => simp_all [cleanup]
  refine ⟨?_, ?_, ?_, ?_⟩ <;>
    simp [exitCode, run, runBody, hi, hd, hclean]

/-- Environment in which the Docker daemon is down and everything else would
succeed. -/
def envDepsFail : Env := { envAllOk with daemonUp := false }

/-- Witness for `c8_deps_failure_aborts`: with the daemon down and a fresh
state, the run exits 1, changes nothing, and never starts a container or
writes a configuration. -/
theorem c8_deps_failure_aborts_witness :
    envDepsFail.interrupt = none ∧ check_dependencies envDepsFail = false
      ∧ fresh.container_id = none ∧ fresh.fs.backup = none
      ∧ (exitCode envDepsFail (initController "nginx:alpine" 8088 80 false none)
            (0 : Nat) fresh = 1
        ∧ (run envDepsFail (initController "nginx:alpine" 8088 80 false none)
            (0 : Nat) fresh).state = fresh
        ∧ (∀ n pm, Event.containerStart n pm
            ∉ (run envDepsFail
                (initController "nginx:alpine" 8088 80 false none)
                (0 : Nat) fresh).trace)
        ∧ Event.configWrite
          ∉ (run envDepsFail (initController "nginx:alpine" 8088 80 false none)
              (0 : Nat) fresh).trace) :=
  ⟨rfl, rfl, rfl, rfl,
    c8_deps_failure_aborts Nat envDepsFail
      (initController "nginx:alpine" 8088 80 false none) 0 fresh
      rfl rfl rfl rfl⟩

/-! ## Claim C10 -/

/-- Claim C10: a user interrupt is treated as overall success.  In any run
that gets past the dependency check and container launch and whose teardown
restore succeeds, a `KeyboardInterrupt` at any phase — including one arriving
while the packaging tool is running (`TauriRun.interrupted`, caught inside
`launch_tauri`) — leads to exit code 0 after cleanup, never 1. -/
theorem c10_interrupt_is_success (α : Type) (env : Env) (ctrl : Controller)
    (new : α) (s0 : CtrlState α) (hr : env.renameRaises = false)
    (hd : check_dependencies env = true) (hl : env.launchOk = true) :
    (∀ p, env.interrupt = some p → exitCode env ctrl new s0 = 0)
      ∧ (env.tauriRun = TauriRun.interrupted →
          exitCode env ctrl new s0 = 0) := by
  have hnr := cleanup_not_raised env.dockerFails env.renameRaises
    (runBody env ctrl new s0).2.1 hr
  have hbody := runBody_fst_true α env ctrl new s0 hd hl
  constructor
  · intro p _
    simp [exitCode, run, hnr, hbody]
  · intro _
    simp [exitCode, run, hnr, hbody]

/-- Environment interrupted during the readiness-poll phase. -/
def envIntrWait : Env := { envAllOk with interrupt := some Phase.wait }

/-- Environment where the interrupt arrives while the packaging tool runs. -/
def envIntrTauri : Env := { envAllOk with tauriRun := TauriRun.interrupted }

/-- Witness for `c10_interrupt_is_success`: an interrupt during the
readiness poll and an interrupt while the packaging tool runs both exit 0. -/
theorem c10_interrupt_is_success_witness :
    (envIntrWait.renameRaises = false
      ∧ check_dependencies envIntrWait = true ∧ envIntrWait.launchOk = true
      ∧ envIntrWait.interrupt = some Phase.wait
      ∧ exitCode envIntrWait (initController "nginx:alpine" 8088 80 false none)
          (0 : Nat) fresh = 0)
      ∧ (envIntrTauri.renameRaises = false
        ∧ check_dependencies envIntrTauri = true
        ∧ envIntrTauri.launchOk = true
        ∧ envIntrTauri.tauriRun = TauriRun.interrupted
        ∧ exitCode envIntrTauri
            (initController "nginx:alpine" 8088 80 false none)
            (0 : Nat) fresh = 0) :=
  ⟨⟨rfl, rfl, rfl, rfl,
    (c10_interrupt_is_success Nat envIntrWait
      (initController "nginx:alpine" 8088 80 false none) 0 fresh
      rfl rfl rfl).1 Phase.wait rfl⟩,
   ⟨rfl, rfl, rfl, rfl,
    (c10_interrupt_is_success Nat envIntrTauri
      (initController "nginx:alpine" 8088 80 false none) 0 fresh
      rfl rfl rfl).2 rfl⟩⟩

/-! ## Claim C1 (corrected: a config-write failure does NOT change the exit
code) -/

/-- Environment in which writing `tauri.conf.json` fails and everything else
succeeds. -/
def envCfgFail : Env := { envAllOk with configWriteOk := false }

/-- Claim C1, counterexample: a failure to write the shell configuration
does not yield exit code 1.  In a run where only the configuration write
fails, the write phase is reached (its result is discarded by `run`) and
the process exits 0. -/
theorem c1_exit_code_cex :
    envCfgFail.configWriteOk = false
      ∧ Event.configWrite
        ∈ (run envCfgFail (initController "nginx:alpine" 8088 80 false none)
            (0 : Nat) fresh).trace
      ∧ exitCode envCfgFail (initController "nginx:alpine" 8088 80 false none)
          (0 : Nat) fresh = 0 := by
  refine ⟨rfl, ?_, by decide⟩
  decide

/-- Claim C1, amended: in every uninterrupted run whose teardown restore
succeeds, the exit code is 1 exactly when the dependency check fails or the
container launch fails; a configuration-write failure, a readiness timeout,
and a missing or failing packaging invoker never change the exit code, which
is 0 on every other run.  (Independently, an escalated teardown restore
failure — see C4 — also exits 1.) -/
theorem c1_exit_code_policy (α : Type) (env : Env) (ctrl : Controller)
    (new : α) (s0 : CtrlState α) (hi : env.interrupt = none)
    (hr : env.renameRaises = false) :
    exitCode env ctrl new s0 = 1
      ↔ (check_dependencies env = false ∨ env.launchOk = false) := by
  have hnr := cleanup_not_raised env.dockerFails env.renameRaises
    (runBody env ctrl new s0).2.1 hr
  have hnr0 := cleanup_not_raised env.dockerFails env.renameRaises s0 hr
  cases hd : check_dependencies env
  · simp [exitCode, run, runBody, hi, hd, hnr0]
  · cases hl : env.launchOk
    · simp [exitCode, run, runBody, hi, hd, hl, hnr0]
    · have hbody := runBody_fst_true α env ctrl new s0 hd hl
      simp [exitCode, run, hnr, hbody, hd, hl]

/-- Witness for `c1_exit_code_policy`: with the daemon down the run exits 1;
in the all-success environment (where the readiness poll times out and is
ignored) it exits 0. -/
theorem c1_exit_code_policy_witness :
    (envDepsFail.interrupt = none ∧ envDepsFail.renameRaises = false
      ∧ (exitCode envDepsFail (initController "nginx:alpine" 8088 80 false none)
            (0 : Nat) fresh = 1
        ↔ (check_dependencies envDepsFail = false
            ∨ envDepsFail.launchOk = false)))
      ∧ (envAllOk.interrupt = none ∧ envAllOk.renameRaises = false
        ∧ (exitCode envAllOk (initController "nginx:alpine" 8088 80 false none)
              (0 : Nat) fresh = 1
          ↔ (check_dependencies envAllOk = false
              ∨ envAllOk.launchOk = false))) :=
  ⟨⟨rfl, rfl,
    c1_exit_code_policy Nat envDepsFail
      (initController "nginx:alpine" 8088 80 false none) 0 fresh rfl rfl⟩,
   ⟨rfl, rfl,
    c1_exit_code_policy Nat envAllOk
      (initController "nginx:alpine" 8088 80 false none) 0 fresh rfl rfl⟩⟩

end Dock2Tauri
